import Mathlib

/-!
Verification of `v2/pkg/js/libs/postgres/postgres.go` (nuclei postgres JS binding).

The file defines a shallow embedding of the package's three operations
(`IsPostgres`, `Connect`/`ConnectWithDB` via `connect`, `ExecuteQuery` via
`unmarshalSQLRows`) and proves the specified properties about them.

External collaborators (the fingerprintx plugin, the go-pg driver, the
database/sql driver) are modelled as explicit outcome parameters: each
function takes the result its collaborator would have produced, and the
embedding reproduces exactly the control flow the Go source performs on
that result.  Resource acquisition (connections obtained from
`net.DialTimeout`, `pg.Connect`, `sql.Open`) is made observable by
explicit `opened`/`closed` counters threaded through the embedding,
mirroring where the source opens a handle and where it calls `Close`.
-/

namespace Postgres

/-- `strings.Contains` on character lists: `sub` occurs in some suffix. -/
def containsSub (sub : List Char) : List Char → Bool
  | [] => sub.isPrefixOf []
  | c :: cs => sub.isPrefixOf (c :: cs) || containsSub sub cs

/-- Go `strings.Contains(s, sub)` (case-sensitive substring test). -/
def strContains (s sub : String) : Bool :=
  containsSub sub.data s.data

/-- The five connectivity substrings of the `switch` in `connect`
(postgres.go lines 176-188), in source order. -/
def infraSubstrings : List String :=
  ["connect: connection refused", "no pg_hba.conf entry for host",
   "network unreachable", "reset", "i/o timeout"]

/-- The disjunction of the five `strings.Contains` checks: the chained
`fallthrough` cases of the `switch` in `connect`. -/
def isInfraError (msg : String) : Bool :=
  infraSubstrings.any (fun sub => strContains msg sub)

/-- Result of a `(bool, error)` function together with the number of
connection handles it opened and closed.  Errors are carried as their
message text (`err.Error()`); `none` is Go's `nil` error. -/
structure ConnOutcome where
  ok : Bool
  err : Option String
  opened : Nat
  closed : Nat
  deriving Repr, DecidableEq

/-- `connect(host, port, username, password, dbName)` (postgres.go 163-192).

The go-pg driver's single collaborator action is `db.Exec("select 1")`;
its outcome is the parameter `exec` (`none` = success, `some msg` = a
failure whose `Error()` text is `msg`).  `pg.Connect` acquires a client
(counted in `opened`); the source contains no `db.Close()` on any path,
so `closed` is `0` whenever the handle was acquired. -/
def connect (host : String) (port : Int) (_username _password _dbName : String)
    (exec : Option String) : ConnOutcome :=
  if host = "" || port ≤ 0 then
    { ok := false, err := some "invalid host or port", opened := 0, closed := 0 }
  else
    match exec with
    | some msg =>
        if isInfraError msg then
          { ok := false, err := some msg, opened := 1, closed := 0 }
        else
          { ok := false, err := none, opened := 1, closed := 0 }
    | none => { ok := true, err := none, opened := 1, closed := 0 }

/-- `Client.Connect` (postgres.go 54-56): `connect` with the database
name defaulted to `"postgres"`. -/
def ClientConnect (host : String) (port : Int) (username password : String)
    (exec : Option String) : ConnOutcome :=
  connect host port username password "postgres" exec

/-- `Client.ConnectWithDB` (postgres.go 159-161). -/
def ClientConnectWithDB (host : String) (port : Int)
    (username password dbName : String) (exec : Option String) : ConnOutcome :=
  connect host port username password dbName exec

/-- Outcome of `plugin.Run` in `IsPostgres`: an error, or a service value
that is either `nil` (`.ok false`) or non-nil (`.ok true`). -/
abbrev PluginResult := Except String Bool

/-- `Client.IsPostgres(host, port)` (postgres.go 26-46).

`dial` is the outcome of `net.DialTimeout` (`some e` = dial error, no
connection obtained).  After a successful dial the connection is closed
by `defer conn.Close()` on every return path. -/
def IsPostgres (_host : String) (_port : Int) (dial : Option String)
    (plugin : PluginResult) : ConnOutcome :=
  match dial with
  | some e => { ok := false, err := some e, opened := 0, closed := 0 }
  | none =>
    match plugin with
    | .error e => { ok := false, err := some e, opened := 1, closed := 1 }
    | .ok false => { ok := false, err := none, opened := 1, closed := 1 }
    | .ok true => { ok := true, err := none, opened := 1, closed := 1 }

/-! ## Row decoding (`unmarshalSQLRows`, postgres.go 81-153) -/

/-- A raw SQL cell value as delivered by the `database/sql` driver:
`null`, a text value, a 64-bit integer value, or a boolean value. -/
inductive SQLVal where
  | null
  | s (v : String)
  | i (v : Int)
  | b (v : Bool)
  deriving Repr, DecidableEq

/-- One entry of `rows.ColumnTypes()`: the column's `Name()` and its
declared `DatabaseTypeName()`. -/
structure ColumnType where
  name : String
  dbTypeName : String
  deriving Repr, DecidableEq

/-- The three scan-holder kinds the `switch` on `DatabaseTypeName()`
can allocate into `scanArgs` (`sql.NullString`, `sql.NullBool`,
`sql.NullInt64`). -/
inductive Holder where
  | hString
  | hBool
  | hInt64
  deriving Repr, DecidableEq

/-- The `switch v.DatabaseTypeName()` of postgres.go 95-107, choosing
the holder allocated for a column (default: `sql.NullString`). -/
def chooseHolder (t : String) : Holder :=
  if t = "VARCHAR" || t = "TEXT" || t = "UUID" || t = "TIMESTAMP" then .hString
  else if t = "BOOL" then .hBool
  else if t = "INT4" then .hInt64
  else .hString

/-- A filled scan holder after `rows.Scan`: the nullable types of
`database/sql`, each a `Valid` flag plus a bare value.  The
`nullFloat64` and `nullInt32` shapes are the holders the unwrap step of
the source tests for (postgres.go 135-143) even though `scanArgs` never
allocates them; the float payload is modelled abstractly as `Int` since
no such holder is ever constructed (proved below). -/
inductive HolderVal where
  | nullString (valid : Bool) (v : String)
  | nullBool (valid : Bool) (v : Bool)
  | nullInt64 (valid : Bool) (v : Int)
  | nullFloat64 (valid : Bool) (v : Int)
  | nullInt32 (valid : Bool) (v : Int)
  deriving Repr, DecidableEq

/-- Scanning one cell into the holder chosen for its column: the
essential conversion behaviour of `database/sql`'s `convertAssign` for
the three allocated holder types.  SQL NULL sets `Valid = false` and
leaves the zero value; a mismatched source that `convertAssign` cannot
convert is a scan error. -/
def scanCell : Holder → SQLVal → Except String HolderVal
  | .hString, .null => .ok (.nullString false "")
  | .hString, .s v => .ok (.nullString true v)
  | .hString, .i v => .ok (.nullString true (toString v))
  | .hString, .b v => .ok (.nullString true (if v then "true" else "false"))
  | .hBool, .null => .ok (.nullBool false false)
  | .hBool, .b v => .ok (.nullBool true v)
  | .hBool, .i v =>
      if v = 0 then .ok (.nullBool true false)
      else if v = 1 then .ok (.nullBool true true)
      else .error "sql: converting argument to NullBool"
  | .hBool, .s _ => .error "sql: converting argument to NullBool"
  | .hInt64, .null => .ok (.nullInt64 false 0)
  | .hInt64, .i v => .ok (.nullInt64 true v)
  | .hInt64, .s _ => .error "sql: converting argument to NullInt64"
  | .hInt64, .b _ => .error "sql: converting argument to NullInt64"

/-- A JSON value, the shape `jsoniter.Marshal` serializes.  An object's
fields are kept as an ordered association list (the Go source stores
them in a `map[string]interface{}`; the contract keys records by name,
so field order carries no meaning). -/
inductive Json where
  | jstr (s : String)
  | jint (n : Int)
  | jbool (b : Bool)
  | jarr (xs : List Json)
  | jobj (fields : List (String × Json))

/-- The type-switch chain of the unwrap step (postgres.go 119-146), in
source order: `NullBool`, `NullString`, `NullInt64`, `NullFloat64`,
`NullInt32`.  Each branch drops the `Valid` flag and keeps the bare
(zero-value-on-null) payload. -/
def unwrapHolder : HolderVal → Json
  | .nullBool _ b => .jbool b
  | .nullString _ s => .jstr s
  | .nullInt64 _ n => .jint n
  | .nullFloat64 _ f => .jint f
  | .nullInt32 _ n => .jint n

/-- Which branch of the unwrap type-switch fires for a holder value
(`bRaw` is the final `masterData[v.Name()] = scanArgs[i]` fallback,
reached only by a holder matching none of the five assertions). -/
inductive UnwrapBranch where
  | bBool
  | bString
  | bInt64
  | bFloat64
  | bInt32
  | bRaw
  deriving Repr, DecidableEq

/-- The branch the unwrap type-switch takes on a given holder value. -/
def unwrapBranch : HolderVal → UnwrapBranch
  | .nullBool .. => .bBool
  | .nullString .. => .bString
  | .nullInt64 .. => .bInt64
  | .nullFloat64 .. => .bFloat64
  | .nullInt32 .. => .bInt32

/-- The per-row body of postgres.go 91-113: allocate `scanArgs` by the
`switch` on each column's declared type, then `rows.Scan` all cells.
A length mismatch between destination arguments and row cells is the
`rows.Scan` count error. -/
def scanRow : List ColumnType → List SQLVal → Except String (List HolderVal)
  | [], [] => .ok []
  | ct :: cts, v :: vs =>
      match scanCell (chooseHolder ct.dbTypeName) v with
      | .error e => .error e
      | .ok hv =>
          match scanRow cts vs with
          | .error e => .error e
          | .ok rest => .ok (hv :: rest)
  | _, _ => .error "sql: expected equal destination arguments in Scan"

/-- Builds `masterData` (postgres.go 115-148): one field per column,
keyed by `v.Name()`, holding the unwrapped bare value. -/
def buildMasterData (cts : List ColumnType) (hvs : List HolderVal) :
    List (String × Json) :=
  (cts.zip hvs).map (fun p => (p.1.name, unwrapHolder p.2))

/-- The `for rows.Next()` loop (postgres.go 89-150): each yielded row is
scanned and unwrapped, accumulating `finalRows` in iteration order. -/
def processRows (columnTypes : List ColumnType) :
    List (List SQLVal) → Except String (List Json)
  | [] => .ok []
  | row :: rest =>
      match scanRow columnTypes row with
      | .error e => .error e
      | .ok scanned =>
          match processRows columnTypes rest with
          | .error e => .error e
          | .ok tail =>
              .ok (.jobj (buildMasterData columnTypes scanned) :: tail)

/-- The state of an `*sql.Rows` cursor: the outcome of
`rows.ColumnTypes()`, the rows `rows.Next()` yields before reporting
false, and the iteration-error status `rows.Err()` would report once
iteration stops (`none` = normal exhaustion). -/
structure Cursor where
  colTypes : Except String (List ColumnType)
  rows : List (List SQLVal)
  iterErr : Option String

/-- `unmarshalSQLRows(rows)` (postgres.go 81-153).  Note the source
never consults `rows.Err()`: the `iterErr` field of the cursor is not
read on any path. -/
def unmarshalSQLRows (c : Cursor) : Except String Json :=
  match c.colTypes with
  | .error e => .error e
  | .ok columnTypes =>
      match processRows columnTypes c.rows with
      | .error e => .error e
      | .ok finalRows => .ok (.jarr finalRows)

/-- Result of `Client.ExecuteQuery` with the resource counters: the
serialized rows or an error, plus handles opened/closed.  The source
closes neither the `sql.DB` from `sql.Open` nor the `*sql.Rows`. -/
structure ExecOutcome where
  result : Except String Json
  opened : Nat
  closed : Nat

/-- `Client.ExecuteQuery(host, port, username, password, dbName, query)`
(postgres.go 60-78).  `openErr` is the outcome of `sql.Open` (a handle
is acquired on success), `queryResult` the outcome of `db.Query`. -/
def ExecuteQuery (_host : String) (_port : Int)
    (_username _password _dbName _query : String)
    (openErr : Option String) (queryResult : Except String Cursor) :
    ExecOutcome :=
  match openErr with
  | some e => { result := .error e, opened := 0, closed := 0 }
  | none =>
    match queryResult with
    | .error e => { result := .error e, opened := 1, closed := 0 }
    | .ok cursor =>
        { result := unmarshalSQLRows cursor, opened := 1, closed := 0 }

/-! ## Refinement counterpart for the decode strategy -/

/-- Scanning a row against an already-chosen list of holders. -/
def scanRowWith : List Holder → List SQLVal → Except String (List HolderVal)
  | [], [] => .ok []
  | h :: hs, v :: vs =>
      match scanCell h v with
      | .error e => .error e
      | .ok hv =>
          match scanRowWith hs vs with
          | .error e => .error e
          | .ok rest => .ok (hv :: rest)
  | _, _ => .error "sql: expected equal destination arguments in Scan"

/-- Row iteration against an already-chosen list of holders. -/
def processRowsWith (columnTypes : List ColumnType) (strategy : List Holder) :
    List (List SQLVal) → Except String (List Json)
  | [] => .ok []
  | row :: rest =>
      match scanRowWith strategy row with
      | .error e => .error e
      | .ok scanned =>
          match processRowsWith columnTypes strategy rest with
          | .error e => .error e
          | .ok tail =>
              .ok (.jobj (buildMasterData columnTypes scanned) :: tail)

/-- Refinement counterpart written from the spec's words (§4.3 step 1):
the per-column decode strategy is fixed ONCE from the column metadata,
before row iteration, and reused unchanged for every row. -/
def processRowsFixedStrategy (columnTypes : List ColumnType)
    (rows : List (List SQLVal)) : Except String (List Json) :=
  let strategy := columnTypes.map (fun v => chooseHolder v.dbTypeName)
  processRowsWith columnTypes strategy rows

/-! ## Helper lemmas -/

theorem scanRow_eq_scanRowWith (cols : List ColumnType) (row : List SQLVal) :
    scanRow cols row
      = scanRowWith (cols.map (fun v => chooseHolder v.dbTypeName)) row := by
  induction cols generalizing row with
  | nil => cases row <;> rfl
  | cons c cs ih =>
      cases row with
      | nil => rfl
      | cons v vs => simp [scanRow, scanRowWith, ih]

theorem scanCell_branch (h : Holder) (v : SQLVal) (hv : HolderVal)
    (hscan : scanCell h v = .ok hv) :
    unwrapBranch hv = .bBool ∨ unwrapBranch hv = .bString ∨
      unwrapBranch hv = .bInt64 := by
  cases h <;> cases v <;>
    simp only [scanCell] at hscan <;>
    (try split at hscan) <;> (try split at hscan) <;>
    (try cases hscan) <;> simp_all [unwrapBranch]

/-! ## Claim theorems -/

/-- C1: when `connect` reaches the `select 1` statement (valid host and
port), a failure whose message contains one of the five connectivity
substrings yields `(false, thatError)`, any other failure yields
`(false, nil)`, and success yields `(true, nil)`. -/
theorem connect_select1_classification (host : String) (port : Int)
    (username password dbName : String) (hh : host ≠ "") (hp : 0 < port) :
    (connect host port username password dbName none).ok = true ∧
    (connect host port username password dbName none).err = none ∧
    ∀ msg,
      (connect host port username password dbName (some msg)).ok = false ∧
      (connect host port username password dbName (some msg)).err
        = (if isInfraError msg then some msg else none) := by
  have hnp : ¬ port ≤ 0 := Int.not_le.mpr hp
  have hguard : (host = "" || port ≤ 0 : Bool) = false := by simp [hh, hnp]
  have hc : ∀ exec, connect host port username password dbName exec =
      match exec with
      | some msg =>
          if isInfraError msg then
            { ok := false, err := some msg, opened := 1, closed := 0 }
          else
            { ok := false, err := none, opened := 1, closed := 0 }
      | none => { ok := true, err := none, opened := 1, closed := 0 } := by
    intro exec
    simp only [connect, hguard, Bool.false_eq_true, if_false]
  refine ⟨by simp [hc], by simp [hc], fun msg => ⟨?_, ?_⟩⟩
  · simp only [hc]; split <;> rfl
  · simp only [hc]; split <;> simp_all

/-- Witness for C1 at concrete inputs: a matching message keeps the
error, a non-matching one is swallowed, success is `(true, nil)`. -/
theorem connect_select1_classification_witness :
    (connect "localhost" 5432 "postgres" "secret" "postgres"
        (some "read tcp: connection reset by peer")).err
      = some "read tcp: connection reset by peer" ∧
    (connect "localhost" 5432 "postgres" "secret" "postgres"
        (some "password authentication failed for user")).err = none ∧
    (connect "localhost" 5432 "postgres" "secret" "postgres" none).ok = true := by
  have h := connect_select1_classification "localhost" 5432 "postgres" "secret"
    "postgres" (by decide) (by decide)
  refine ⟨?_, ?_, h.1⟩
  · rw [(h.2.2 "read tcp: connection reset by peer").2]; decide
  · rw [(h.2.2 "password authentication failed for user").2]; decide

/-- C2: a SQL NULL scanned into any of the three holders unwraps to the
zero value of the chosen decode type (`""`, `false`, `0`) with no null
marker, and the (id INT4, name TEXT, active BOOL) example decodes to
exactly the specified array of records. -/
theorem null_collapses_to_zero_value :
    (scanCell .hString .null).map unwrapHolder = .ok (.jstr "") ∧
    (scanCell .hBool .null).map unwrapHolder = .ok (.jbool false) ∧
    (scanCell .hInt64 .null).map unwrapHolder = .ok (.jint 0) ∧
    unmarshalSQLRows
        { colTypes := .ok [⟨"id", "INT4"⟩, ⟨"name", "TEXT"⟩, ⟨"active", "BOOL"⟩],
          rows := [[.i 1, .s "alice", .b true], [.i 2, .null, .null]],
          iterErr := none }
      = .ok (.jarr
          [.jobj [("id", .jint 1), ("name", .jstr "alice"),
                  ("active", .jbool true)],
           .jobj [("id", .jint 2), ("name", .jstr ""),
                  ("active", .jbool false)]]) :=
  ⟨rfl, rfl, rfl, rfl⟩

/-- C3 (code bug): the source never calls `db.Close()` in `connect` nor
`db.Close()`/`rows.Close()` in `ExecuteQuery`, so the handles acquired
on a successful call are still open on return, contradicting the
functions' own doc comments ("The connection is closed after the
function returns"). -/
theorem connect_executeQuery_leak :
    (connect "localhost" 5432 "postgres" "secret" "postgres" none).opened = 1 ∧
    (connect "localhost" 5432 "postgres" "secret" "postgres" none).closed = 0 ∧
    (ExecuteQuery "localhost" 5432 "postgres" "secret" "postgres" "select 1"
        none (.ok { colTypes := .ok [], rows := [], iterErr := none })).opened
      = 1 ∧
    (ExecuteQuery "localhost" 5432 "postgres" "secret" "postgres" "select 1"
        none (.ok { colTypes := .ok [], rows := [], iterErr := none })).closed
      = 0 :=
  ⟨rfl, rfl, rfl, rfl⟩

/-- C4: with an empty host or non-positive port, `connect` (and both
entry points) returns `(false, "invalid host or port")` with no handle
acquired — no network activity. -/
theorem connect_invalid_target (host : String) (port : Int)
    (username password dbName : String) (exec : Option String)
    (h : host = "" ∨ port ≤ 0) :
    connect host port username password dbName exec
      = { ok := false, err := some "invalid host or port",
          opened := 0, closed := 0 } ∧
    ClientConnect host port username password exec
      = { ok := false, err := some "invalid host or port",
          opened := 0, closed := 0 } ∧
    ClientConnectWithDB host port username password dbName exec
      = { ok := false, err := some "invalid host or port",
          opened := 0, closed := 0 } := by
  rcases h with h | h <;>
    refine ⟨?_, ?_, ?_⟩ <;> simp [connect, ClientConnect, ClientConnectWithDB, h]

/-- Witness for C4 at an empty host and at port 0. -/
theorem connect_invalid_target_witness :
    connect "" 5432 "postgres" "secret" "postgres" none
      = { ok := false, err := some "invalid host or port",
          opened := 0, closed := 0 } ∧
    ClientConnect "localhost" 0 "postgres" "secret" none
      = { ok := false, err := some "invalid host or port",
          opened := 0, closed := 0 } :=
  ⟨(connect_invalid_target "" 5432 "postgres" "secret" "postgres" none
      (Or.inl rfl)).1,
   (connect_invalid_target "localhost" 0 "postgres" "secret" "postgres" none
      (Or.inr (by decide))).2.1⟩

/-- C5: the holder chosen for a column is determined by its declared
database type name exactly as the `switch` states: VARCHAR, TEXT, UUID,
TIMESTAMP → nullable string; BOOL → nullable bool; INT4 → nullable
int64; anything else → nullable string. -/
theorem chooseHolder_mapping :
    chooseHolder "VARCHAR" = .hString ∧ chooseHolder "TEXT" = .hString ∧
    chooseHolder "UUID" = .hString ∧ chooseHolder "TIMESTAMP" = .hString ∧
    chooseHolder "BOOL" = .hBool ∧ chooseHolder "INT4" = .hInt64 ∧
    ∀ t, t ∉ (["VARCHAR", "TEXT", "UUID", "TIMESTAMP", "BOOL", "INT4"] :
        List String) →
      chooseHolder t = .hString := by
  refine ⟨rfl, rfl, rfl, rfl, rfl, rfl, ?_⟩
  intro t ht
  simp only [List.mem_cons, List.not_mem_nil, or_false, not_or] at ht
  obtain ⟨h1, h2, h3, h4, h5, h6⟩ := ht
  simp [chooseHolder, h1, h2, h3, h4, h5, h6]

/-- Witness for C5: the six named types plus a type outside the list
(FLOAT8 falls back to nullable string). -/
theorem chooseHolder_mapping_witness :
    chooseHolder "VARCHAR" = .hString ∧ chooseHolder "BOOL" = .hBool ∧
    chooseHolder "INT4" = .hInt64 ∧ chooseHolder "FLOAT8" = .hString :=
  ⟨chooseHolder_mapping.1, chooseHolder_mapping.2.2.2.2.1,
   chooseHolder_mapping.2.2.2.2.2.1,
   chooseHolder_mapping.2.2.2.2.2.2 "FLOAT8" (by decide)⟩

/-- C6: `IsPostgres` returns `(false, dialError)` when the dial fails,
`(false, nil)` when the plugin reports no service, `(false, pluginError)`
when the plugin errors, and after a successful dial the raw connection
is closed (deferred close) on every return path. -/
theorem isPostgres_classification (host : String) (port : Int)
    (plugin : PluginResult) (e : String) :
    IsPostgres host port (some e) plugin
      = { ok := false, err := some e, opened := 0, closed := 0 } ∧
    IsPostgres host port none (.ok false)
      = { ok := false, err := none, opened := 1, closed := 1 } ∧
    IsPostgres host port none (.error e)
      = { ok := false, err := some e, opened := 1, closed := 1 } ∧
    (IsPostgres host port none plugin).opened = 1 ∧
    (IsPostgres host port none plugin).closed = 1 := by
  refine ⟨rfl, rfl, rfl, ?_, ?_⟩ <;>
    · cases plugin with
      | error e' => rfl
      | ok b => cases b <;> rfl

/-- C7: the per-row holder allocation of the source depends only on the
column metadata fetched once before iteration, never on row values: the
loop is extensionally equal to the spec's formulation that fixes the
strategy once before iterating, and scanning any row uses exactly the
holders `chooseHolder` assigns from the metadata. -/
theorem decode_strategy_fixed (columnTypes : List ColumnType)
    (rows : List (List SQLVal)) :
    processRows columnTypes rows = processRowsFixedStrategy columnTypes rows ∧
    ∀ row, scanRow columnTypes row
      = scanRowWith (columnTypes.map (fun v => chooseHolder v.dbTypeName)) row := by
  refine ⟨?_, scanRow_eq_scanRowWith columnTypes⟩
  induction rows with
  | nil => rfl
  | cons row rest ih =>
      simp [processRows, processRowsFixedStrategy, processRowsWith,
        scanRow_eq_scanRowWith, ih]

/-- C8: `Client.Connect` is `Client.ConnectWithDB` with the database
name defaulted to `"postgres"`; the two entry points agree exactly. -/
theorem connect_default_db (host : String) (port : Int)
    (username password : String) (exec : Option String) :
    ClientConnect host port username password exec
      = ClientConnectWithDB host port username password "postgres" exec :=
  rfl

/-- C9: every holder produced by scanning a row is a nullable string,
nullable bool, or nullable int64, so the `NullFloat64`, `NullInt32`,
and raw-fallback branches of the unwrap type-switch are never taken. -/
theorem unwrap_dead_branches (cols : List ColumnType) (row : List SQLVal)
    (hvs : List HolderVal) (hscan : scanRow cols row = .ok hvs) :
    ∀ hv ∈ hvs,
      unwrapBranch hv ≠ .bFloat64 ∧ unwrapBranch hv ≠ .bInt32 ∧
      unwrapBranch hv ≠ .bRaw ∧
      (unwrapBranch hv = .bBool ∨ unwrapBranch hv = .bString ∨
        unwrapBranch hv = .bInt64) := by
  induction cols generalizing row hvs with
  | nil =>
      cases row with
      | nil =>
          simp only [scanRow, Except.ok.injEq] at hscan
          subst hscan
          simp
      | cons v vs => simp [scanRow] at hscan
  | cons c cs ih =>
      cases row with
      | nil => simp [scanRow] at hscan
      | cons v vs =>
          cases hcell : scanCell (chooseHolder c.dbTypeName) v with
          | error e => simp [scanRow, hcell] at hscan
          | ok hv =>
              cases hrest : scanRow cs vs with
              | error e => simp [scanRow, hcell, hrest] at hscan
              | ok rest =>
                  simp only [scanRow, hcell, hrest, Except.ok.injEq] at hscan
                  subst hscan
                  intro x hx
                  rcases List.mem_cons.mp hx with hx | hx
                  · subst hx
                    rcases scanCell_branch _ _ _ hcell with h | h | h <;>
                      refine ⟨?_, ?_, ?_, ?_⟩ <;> simp [h]
                  · exact ih vs rest hrest x hx

/-- Witness for C9: scanning an INT4 cell yields a nullable-int64
holder, whose unwrap branch is none of the dead ones. -/
theorem unwrap_dead_branches_witness :
    unwrapBranch (.nullInt64 true 7) ≠ .bFloat64 ∧
    unwrapBranch (.nullInt64 true 7) ≠ .bInt32 ∧
    unwrapBranch (.nullInt64 true 7) ≠ .bRaw ∧
    (unwrapBranch (.nullInt64 true 7) = .bBool ∨
      unwrapBranch (.nullInt64 true 7) = .bString ∨
      unwrapBranch (.nullInt64 true 7) = .bInt64) :=
  unwrap_dead_branches [⟨"id", "INT4"⟩] [.i 7] [.nullInt64 true 7] rfl
    (.nullInt64 true 7) (by simp)

/-- C10: `rows.Err()` is never consulted, so an iteration error leaves
the output unchanged: `ExecuteQuery` returns the serialization of the
rows yielded before the cursor stopped, with a nil error. -/
theorem iteration_error_dropped (cols : List ColumnType)
    (rows : List (List SQLVal)) (e : String) (host : String) (port : Int)
    (username password dbName sqlText : String) (js : List Json)
    (hscan : processRows cols rows = .ok js) :
    (ExecuteQuery host port username password dbName sqlText none
        (.ok { colTypes := .ok cols, rows := rows, iterErr := some e })).result
      = .ok (.jarr js) ∧
    unmarshalSQLRows { colTypes := .ok cols, rows := rows, iterErr := some e }
      = unmarshalSQLRows { colTypes := .ok cols, rows := rows, iterErr := none } := by
  constructor
  · simp [ExecuteQuery, unmarshalSQLRows, hscan]
  · rfl

/-- Witness for C10: one row is yielded, then the cursor stops with a
driver error; the result is the serialized row and no error. -/
theorem iteration_error_dropped_witness :
    (ExecuteQuery "localhost" 5432 "postgres" "secret" "postgres"
        "select id from users" none
        (.ok { colTypes := .ok [⟨"id", "INT4"⟩],
               rows := [[.i 1]],
               iterErr := some "driver: bad connection" })).result
      = .ok (.jarr [.jobj [("id", .jint 1)]]) :=
  (iteration_error_dropped [⟨"id", "INT4"⟩] [[.i 1]] "driver: bad connection"
    "localhost" 5432 "postgres" "secret" "postgres" "select id from users"
    [.jobj [("id", .jint 1)]] rfl).1

end Postgres
